import Mathlib

/-!
Verification of the WFH-monitoring desktop agent
(`src/desktop-client/tracker.py`) against its natural-language
specification.  The Python module is shallowly embedded: the live
accumulator dict is an association list of `(app, seconds)` pairs in
insertion order (Python dicts preserve insertion order), fallible and
effectful operations become explicit state-passing functions, and the
network is an environment of per-attempt outcomes.
-/

namespace Tracker

/-- `IDLE_THRESHOLD = int(os.getenv('IDLE_THRESHOLD', '300'))`, tracker.py line 56
(default value; the claims are about the default 300 s). -/
def IDLE_THRESHOLD : ℕ := 300

/-- `max_retries = 3`, tracker.py line 552. -/
def max_retries : ℕ := 3

/-- First-match lookup in an association list: `d[k]` / `d.get(k)` on a
Python dict represented by its item list. -/
def lookup? : List (String × ℕ) → String → Option ℕ
  | [], _ => none
  | p :: ps, k => if p.1 = k then some p.2 else lookup? ps k

/-- Lookup with default 0 (the accumulator treats a missing app as 0 s). -/
def lookupD (l : List (String × ℕ)) (k : String) : ℕ :=
  (lookup? l k).getD 0

/-- `d[k] = v` for a key already present: the entry keeps its position. -/
def setVal : List (String × ℕ) → String → ℕ → List (String × ℕ)
  | [], _, _ => []
  | p :: ps, k, v => (if p.1 = k then (k, v) else p) :: setVal ps k v

/-- `d[k] = v`: update in place if present, else append (Python dicts append
new keys at the end). -/
def dinsert (l : List (String × ℕ)) (k : String) (v : ℕ) : List (String × ℕ) :=
  if (lookup? l k).isSome then setVal l k v else l ++ [(k, v)]

/-- `del d[k]`. -/
def derase : List (String × ℕ) → String → List (String × ℕ)
  | [], _ => []
  | p :: ps, k => if p.1 = k then derase ps k else p :: derase ps k

/-- `max(0, v - s)` on Python ints, tracker.py line 608. -/
def pySub (v s : ℕ) : ℕ :=
  (max 0 ((v : ℤ) - (s : ℤ))).toNat

/-- Python truthiness of the `active_app` value returned by
`get_active_app_name()`: `None` and the empty string are falsy. -/
def appDetected : Option String → Prop
  | none => False
  | some app => app ≠ ""

instance appDetected.dec : (a : Option String) → Decidable (appDetected a)
  | none => isFalse fun h => h
  | some app => inferInstanceAs (Decidable (app ≠ ""))

/-- `aggregate_app_usage(active_app, duration)`, tracker.py lines 303-312:
`if not active_app: return` (None and the empty string are falsy), then
insert 0 if absent and add `duration`. -/
def aggregate_app_usage (l : List (String × ℕ)) (active_app : Option String)
    (duration : ℕ) : List (String × ℕ) :=
  match active_app with
  | none => l
  | some app =>
    if app = "" then l
    else dinsert l app (lookupD l app + duration)

/-- One per-second activity check of the main loop, tracker.py lines 955-973:
`if idle < IDLE_THRESHOLD and active_app: aggregate_app_usage(active_app, 1)`;
the `elif idle >= IDLE_THRESHOLD` branch only logs. -/
def activityTick (l : List (String × ℕ)) (idle : ℚ) (active_app : Option String) :
    List (String × ℕ) :=
  if idle < (IDLE_THRESHOLD : ℚ) ∧ appDetected active_app then
    aggregate_app_usage l active_app 1
  else l

/-- A sequence of main-loop activity checks (each given its idle duration and
detected foreground app) applied in order. -/
def applyTicks : List (String × ℕ) → List (ℚ × Option String) → List (String × ℕ)
  | l, [] => l
  | l, e :: es => applyTicks (activityTick l e.1 e.2) es

/-- How many of the given activity checks actually add a second to `app`. -/
def tickCount : List (ℚ × Option String) → String → ℕ
  | [], _ => 0
  | e :: es, app =>
    (if e.1 < (IDLE_THRESHOLD : ℚ) ∧ e.2 = some app ∧ app ≠ "" then 1 else 0)
      + tickCount es app

/-- The success-path reconciliation of `sync_data`, tracker.py lines 604-611:
for each `(app, seconds)` of the snapshot, if `app` is still in the live map,
set it to `max(0, live - seconds)` and delete the key when it reaches 0. -/
def subtract_synced : List (String × ℕ) → List (String × ℕ) → List (String × ℕ)
  | [], live => live
  | (app, s) :: rest, live =>
    match lookup? live app with
    | none => subtract_synced rest live
    | some v =>
      subtract_synced rest
        (if pySub v s = 0 then derase live app else setVal live app (pySub v s))

theorem pySub_eq (v s : ℕ) : pySub v s = v - s := by
  unfold pySub
  omega

theorem lookup?_setVal_self (l : List (String × ℕ)) (k : String) (v : ℕ)
    (h : (lookup? l k).isSome) : lookup? (setVal l k v) k = some v := by
  induction l with
  | nil => simp [lookup?] at h
  | cons p ps ih =>
    by_cases hpk : p.1 = k
    · simp [setVal, lookup?, hpk]
    · simp only [lookup?, hpk, if_false] at h
      simpa [setVal, lookup?, hpk] using ih h

theorem lookup?_setVal_ne (l : List (String × ℕ)) (k k' : String) (v : ℕ)
    (h : k' ≠ k) : lookup? (setVal l k v) k' = lookup? l k' := by
  induction l with
  | nil => simp [setVal]
  | cons p ps ih =>
    by_cases hpk : p.1 = k
    · have h1 : ¬ ((k, v).1 = k') := fun hc => h hc.symm
      have h2 : ¬ p.1 = k' := fun hc => h (hpk ▸ hc).symm
      rw [setVal, if_pos hpk, lookup?, if_neg h1, lookup?, if_neg h2, ih]
    · rw [setVal, if_neg hpk, lookup?, lookup?]
      by_cases hpk' : p.1 = k'
      · simp [hpk']
      · simp [hpk', ih]

theorem lookup?_derase_self (l : List (String × ℕ)) (k : String) :
    lookup? (derase l k) k = none := by
  induction l with
  | nil => simp [derase, lookup?]
  | cons p ps ih =>
    by_cases hpk : p.1 = k
    · simpa [derase, hpk] using ih
    · simpa [derase, hpk, lookup?] using ih

theorem lookup?_derase_ne (l : List (String × ℕ)) (k k' : String) (h : k' ≠ k) :
    lookup? (derase l k) k' = lookup? l k' := by
  induction l with
  | nil => simp [derase]
  | cons p ps ih =>
    by_cases hpk : p.1 = k
    · have h2 : ¬ p.1 = k' := fun hc => h (hpk ▸ hc).symm
      rw [derase, if_pos hpk, lookup?, if_neg h2, ih]
    · rw [derase, if_neg hpk, lookup?, lookup?]
      by_cases hpk' : p.1 = k'
      · simp [hpk']
      · simp [hpk', ih]

theorem lookup?_append (l l' : List (String × ℕ)) (k : String) :
    lookup? (l ++ l') k =
      match lookup? l k with
      | some v => some v
      | none => lookup? l' k := by
  induction l with
  | nil => simp [lookup?]
  | cons p ps ih =>
    by_cases hpk : p.1 = k
    · simp [lookup?, hpk]
    · simp [lookup?, hpk, ih]

theorem lookup?_eq_none_of_not_mem (l : List (String × ℕ)) (k : String)
    (h : k ∉ l.map Prod.fst) : lookup? l k = none := by
  induction l with
  | nil => rfl
  | cons p ps ih =>
    rw [List.map_cons] at h
    simp only [List.mem_cons, not_or] at h
    rw [lookup?, if_neg (fun hc => h.1 hc.symm), ih h.2]

theorem lookup?_aggregate (l : List (String × ℕ)) (a : Option String)
    (dur : ℕ) (app : String) :
    lookup? (aggregate_app_usage l a dur) app =
      if a = some app ∧ app ≠ "" then some (lookupD l app + dur)
      else lookup? l app := by
  match a with
  | none => simp [aggregate_app_usage]
  | some b =>
    by_cases hb : b = ""
    · have hcond : ¬ ((some b : Option String) = some app ∧ app ≠ "") := by
        rintro ⟨hba, hne⟩
        exact hne (by cases hba; exact hb)
      rw [if_neg hcond]
      simp [aggregate_app_usage, hb]
    · by_cases hba : b = app
      · subst hba
        rw [if_pos ⟨rfl, hb⟩]
        rw [show aggregate_app_usage l (some b) dur
              = dinsert l b (lookupD l b + dur) by simp [aggregate_app_usage, hb]]
        unfold dinsert
        by_cases hmem : (lookup? l b).isSome
        · rw [if_pos hmem, lookup?_setVal_self l b _ hmem]
        · rw [if_neg hmem, lookup?_append]
          rcases hop : lookup? l b with _ | v
          · simp [lookup?, lookupD, hop]
          · exact absurd (by simp [hop]) hmem
      · have hcond : ¬ ((some b : Option String) = some app ∧ app ≠ "") := by
          rintro ⟨hba', _⟩
          exact hba (by cases hba'; rfl)
        rw [if_neg hcond]
        rw [show aggregate_app_usage l (some b) dur
              = dinsert l b (lookupD l b + dur) by simp [aggregate_app_usage, hb]]
        unfold dinsert
        by_cases hmem : (lookup? l b).isSome
        · rw [if_pos hmem, lookup?_setVal_ne l b app _ (fun hc => hba hc.symm)]
        · rw [if_neg hmem, lookup?_append]
          rcases hop : lookup? l app with _ | v
          · simp [lookup?, hba]
          · simp

theorem lookup?_activityTick (l : List (String × ℕ)) (idle : ℚ)
    (a : Option String) (app : String) :
    lookup? (activityTick l idle a) app =
      if idle < (IDLE_THRESHOLD : ℚ) ∧ a = some app ∧ app ≠ "" then
        some (lookupD l app + 1)
      else lookup? l app := by
  unfold activityTick
  by_cases hg : idle < (IDLE_THRESHOLD : ℚ) ∧ appDetected a
  · rw [if_pos hg, lookup?_aggregate]
    by_cases hc : (a = some app ∧ app ≠ "")
    · rw [if_pos hc, if_pos ⟨hg.1, hc.1, hc.2⟩]
    · rw [if_neg hc, if_neg (fun h => hc ⟨h.2.1, h.2.2⟩)]
  · have hc : ¬ (idle < (IDLE_THRESHOLD : ℚ) ∧ a = some app ∧ app ≠ "") := by
      rintro ⟨h1, h2, h3⟩
      exact hg ⟨h1, by rw [h2]; exact h3⟩
    rw [if_neg hg, if_neg hc]

theorem lookup?_applyTicks (evs : List (ℚ × Option String))
    (l : List (String × ℕ)) (app : String) :
    lookup? (applyTicks l evs) app =
      if tickCount evs app = 0 then lookup? l app
      else some (lookupD l app + tickCount evs app) := by
  induction evs generalizing l with
  | nil => simp [applyTicks, tickCount]
  | cons e es ih =>
    rw [applyTicks, ih]
    by_cases hev : e.1 < (IDLE_THRESHOLD : ℚ) ∧ e.2 = some app ∧ app ≠ ""
    · have hl : lookup? (activityTick l e.1 e.2) app = some (lookupD l app + 1) := by
        rw [lookup?_activityTick, if_pos hev]
      have hld : lookupD (activityTick l e.1 e.2) app = lookupD l app + 1 := by
        simp [lookupD, hl]
      rw [tickCount, if_pos hev]
      by_cases htc : tickCount es app = 0
      · simp [htc, hl, hld]
      · simp only [htc, if_false, hld]
        rw [if_neg (by omega)]
        congr 1
        omega
    · have hl : lookup? (activityTick l e.1 e.2) app = lookup? l app := by
        rw [lookup?_activityTick, if_neg hev]
      have hld : lookupD (activityTick l e.1 e.2) app = lookupD l app := by
        simp [lookupD, hl]
      rw [tickCount, if_neg hev]
      simp [hl, hld]

theorem lookup?_subtract_notin (snap live : List (String × ℕ)) (app : String)
    (h : lookup? snap app = none) :
    lookup? (subtract_synced snap live) app = lookup? live app := by
  induction snap generalizing live with
  | nil => simp [subtract_synced]
  | cons p ps ih =>
    obtain ⟨k, s⟩ := p
    have hk : ¬ k = app := by
      intro hc
      simp [lookup?, hc] at h
    have hps : lookup? ps app = none := by
      simpa [lookup?, hk] using h
    rw [subtract_synced]
    rcases hlv : lookup? live k with _ | v
    · exact ih live hps
    · simp only
      by_cases hz : pySub v s = 0
      · rw [if_pos hz, ih (derase live k) hps,
          lookup?_derase_ne live k app (fun hc => hk hc.symm)]
      · rw [if_neg hz, ih (setVal live k (pySub v s)) hps,
          lookup?_setVal_ne live k app _ (fun hc => hk hc.symm)]

theorem lookup?_subtract (snap : List (String × ℕ))
    (hnodup : (snap.map Prod.fst).Nodup) (live : List (String × ℕ)) (app : String) :
    lookup? (subtract_synced snap live) app =
      match lookup? snap app, lookup? live app with
      | none, x => x
      | some _, none => none
      | some s, some v => if pySub v s = 0 then none else some (pySub v s) := by
  induction snap generalizing live with
  | nil => simp [subtract_synced, lookup?]
  | cons p ps ih =>
    obtain ⟨k, s⟩ := p
    rw [List.map_cons, List.nodup_cons] at hnodup
    have hknotin : lookup? ps k = none :=
      lookup?_eq_none_of_not_mem ps k hnodup.1
    have hnod : (ps.map Prod.fst).Nodup := hnodup.2
    by_cases hka : k = app
    · subst hka
      have hsnap : lookup? ((k, s) :: ps) k = some s := by
        rw [lookup?, if_pos rfl]
      rw [subtract_synced, hsnap]
      rcases hlv : lookup? live k with _ | v
      · rw [lookup?_subtract_notin ps live k hknotin, hlv]
      · simp only
        by_cases hz : pySub v s = 0
        · rw [if_pos hz, lookup?_subtract_notin ps _ k hknotin,
            lookup?_derase_self, if_pos hz]
        · rw [if_neg hz, lookup?_subtract_notin ps _ k hknotin,
            lookup?_setVal_self live k _ (by simp [hlv]), if_neg hz]
    · have hsnap : lookup? ((k, s) :: ps) app = lookup? ps app := by
        rw [lookup?, if_neg hka]
      rw [subtract_synced, hsnap]
      rcases hlv : lookup? live k with _ | v
      · exact ih hnod live
      · simp only
        by_cases hz : pySub v s = 0
        · rw [if_pos hz, ih hnod _,
            lookup?_derase_ne live k app (fun hc => hka hc.symm)]
        · rw [if_neg hz, ih hnod _,
            lookup?_setVal_ne live k app _ (fun hc => hka hc.symm)]

/-- Python's `round(x, 2)` on the rationals: round half to even at two
decimal places.  (Binary-float representation error is not modelled; at the
values the tracker rounds — integer seconds divided by 60 — the argument is
never a two-decimal half-tie, so the tie-breaking rule is moot there.) -/
def pyRound2 (x : ℚ) : ℚ :=
  (if Int.fract (x * 100) = 1 / 2 then 2 * round (x * 100 / 2)
   else round (x * 100) : ℤ) / 100

/-- Seconds-to-minutes normalization of `sync_data`, tracker.py lines 489-498:
`minutes = round(seconds / 60, 2)`, kept only when positive, iterating the
snapshot in dict order. -/
def normalizeApps (items : List (String × ℕ)) : List (String × ℚ) :=
  (items.map fun p => (p.1, pyRound2 ((p.2 : ℚ) / 60))).filter fun p => 0 < p.2

/-- `total_active_time_seconds`, tracker.py lines 491-494: the sum of the raw
accumulated seconds over every snapshot entry (accumulated before the per-app
rounding and positivity filter). -/
def totalSeconds (items : List (String × ℕ)) : ℕ :=
  (items.map Prod.snd).sum

/-- The JSON body `data` built by `sync_data`, tracker.py lines 524-539.
`app_usage` is a verbatim alias of `apps` (line 528) and is not duplicated
here; `app_sync_info` (per-app copies of the same strftime timestamp) and
`system_info` (platform metadata strings) carry no verified content and are
omitted. -/
structure Payload where
  username : String
  display_name : String
  apps : List (String × ℚ)
  timestamp : String
  date : String
  idle_time : ℚ
  total_active_time : ℚ
deriving DecidableEq

/-- Payload construction, tracker.py lines 481-539: idle minutes are reported
only when the current idle duration has reached `IDLE_THRESHOLD` (lines
482-487), per-app minutes are the positive rounded values, and
`total_active_time = round(total_active_time_seconds / 60, 2)` (line 501). -/
def buildPayload (username display_name : String) (items : List (String × ℕ))
    (timestamp date : String) (currentIdle : ℚ) : Payload where
  username := username
  display_name := if display_name = "" then username else display_name
  apps := normalizeApps items
  timestamp := timestamp
  date := date
  idle_time :=
    if (IDLE_THRESHOLD : ℚ) ≤ currentIdle then pyRound2 (currentIdle / 60) else 0
  total_active_time := pyRound2 ((totalSeconds items : ℚ) / 60)

/-- `validate_data_before_sync`, tracker.py lines 846-879.  In this typed
embedding the required keys exist and `apps` is a map by construction, and the
`timestamp`/`date` fields fed to it are produced by `strftime` with the very
formats `strptime` re-checks, so the only check that can fail is the username
truthiness/type check (lines 856-858). -/
def validate_data_before_sync (data : Payload) : Bool :=
  data.username ≠ ""

/-- Outcome of one `requests.post` call inside the retry loop: an HTTP
response with a status code, a `ConnectionError`, or another
`RequestException`. -/
inductive AttemptResult where
  | status (code : ℕ)
  | connError
  | reqError
deriving DecidableEq

/-- How the retry loop of `sync_data` (tracker.py lines 556-595) ends:
`broke` = a 200 response broke out of the loop; `exhausted r` = all attempts
ran without an early return, `r` being the last response received;
`cachedReturn` = the payload was cached and the function returned from inside
the loop (final-attempt `ConnectionError`, lines 577-581, or final-attempt
other `RequestException`, lines 585-595). -/
inductive LoopExit where
  | broke
  | exhausted (response : Option ℕ)
  | cachedReturn
deriving DecidableEq

/-- Observable result of running the retry loop: number of `requests.post`
calls, the `time.sleep` delays in order, and how the loop ended. -/
structure LoopResult where
  posts : ℕ
  sleeps : List ℕ
  exitKind : LoopExit
deriving DecidableEq

/-- The retry loop of `sync_data`, tracker.py lines 552-595, transcribed with
`remaining` attempts left (so the loop index is `max_retries - remaining`,
and `remaining = 1` is the final attempt), the current backoff `delay`
(starting at 2 and doubled after each sleep), and the `response` variable. -/
def syncLoopGo (outcomes : ℕ → AttemptResult) :
    ℕ → ℕ → ℕ → Option ℕ → LoopResult
  | _, 0, _, response => ⟨0, [], .exhausted response⟩
  | idx, r + 1, delay, response =>
    match outcomes idx with
    | .status code =>
      if code = 200 then ⟨1, [], .broke⟩
      else if r = 0 then ⟨1, [], .exhausted (some code)⟩
      else
        let rest := syncLoopGo outcomes (idx + 1) r (delay * 2) (some code)
        ⟨rest.posts + 1, delay :: rest.sleeps, rest.exitKind⟩
    | .connError =>
      if r = 0 then ⟨1, [], .cachedReturn⟩
      else
        let rest := syncLoopGo outcomes (idx + 1) r (delay * 2) response
        ⟨rest.posts + 1, delay :: rest.sleeps, rest.exitKind⟩
    | .reqError =>
      if r = 0 then ⟨1, [], .cachedReturn⟩
      else
        let rest := syncLoopGo outcomes (idx + 1) r (delay * 2) response
        ⟨rest.posts + 1, delay :: rest.sleeps, rest.exitKind⟩

/-- Inputs of one `sync_data` run: the snapshot `acc` ( `app_usage.copy()`,
line 473 — the live map's items at snapshot time), the global flags, the
configured identity, the strftime-produced time strings, the current idle
duration, and the network environment giving each attempt's outcome. -/
structure SyncInput where
  acc : List (String × ℕ)
  tracking_enabled : Bool
  has_joined_today : Bool
  username : String
  display_name : String
  timestamp : String
  date : String
  currentIdle : ℚ
  outcomes : ℕ → AttemptResult

/-- Observable effects of one `sync_data` run: POST count, sleep delays, the
payload written to the durable cache by `save_to_cache` (if any), the payload
that was built (if reached), whether the success-path subtraction ran, and
the live accumulator when the function returns. -/
structure SyncResult where
  posts : ℕ
  sleeps : List ℕ
  cached : Option Payload
  built : Option Payload
  subtracted : Bool
  accAfter : List (String × ℕ)

/-- `sync_data`, tracker.py lines 456-637.  Early return on an empty
accumulator (lines 468-470) or an all-zero normalized map (lines 505-507);
cache-and-return on validation failure (lines 542-546); if tracking, run the
retry loop and on a 200 subtract the snapshotted seconds from the live map
(lines 601-611) else cache (lines 612-615); if not tracking, cache only when
`has_joined_today` (lines 616-623).  No ticks are modelled between snapshot
and subtraction here (the live map equals the snapshot); the interleaving is
covered by `subtract_synced` composed with `applyTicks` in the claim-C1
theorem. -/
def sync_data (inp : SyncInput) : SyncResult :=
  if inp.acc.isEmpty then ⟨0, [], none, none, false, inp.acc⟩
  else if (normalizeApps inp.acc).isEmpty then ⟨0, [], none, none, false, inp.acc⟩
  else
    let data := buildPayload inp.username inp.display_name inp.acc
      inp.timestamp inp.date inp.currentIdle
    if ¬ validate_data_before_sync data then
      ⟨0, [], some data, some data, false, inp.acc⟩
    else if inp.tracking_enabled then
      let lr := syncLoopGo inp.outcomes 0 max_retries 2 none
      match lr.exitKind with
      | .broke =>
        ⟨lr.posts, lr.sleeps, none, some data, true,
          subtract_synced inp.acc inp.acc⟩
      | .exhausted _ => ⟨lr.posts, lr.sleeps, some data, some data, false, inp.acc⟩
      | .cachedReturn => ⟨lr.posts, lr.sleeps, some data, some data, false, inp.acc⟩
    else
      if inp.has_joined_today then ⟨0, [], some data, some data, false, inp.acc⟩
      else ⟨0, [], none, some data, false, inp.acc⟩

/-- The agent's global mutable state relevant to membership, caching and
accumulation: `tracking_enabled`, `has_joined_today`, `last_join_date`
(ISO date string or `None`), the live accumulator `app_usage`, and the
contents of the cache file (`save_to_cache` always writes a one-entry list,
line 328; `'[]'` is the empty list). -/
structure AgentState where
  tracking_enabled : Bool
  has_joined_today : Bool
  last_join_date : Option String
  acc : List (String × ℕ)
  cache : List Payload

/-- Environment parameters a nested `sync_data` call reads: configured
identity, the strftime strings for the sync payload, the current idle
duration, and the per-attempt network outcomes. -/
structure SessionEnv where
  username : String
  display_name : String
  timestamp : String
  syncDate : String
  currentIdle : ℚ
  outcomes : ℕ → AttemptResult

/-- Assemble the `SyncInput` a nested `sync_data()` call sees from the
current globals. -/
def mkSyncInput (st : AgentState) (env : SessionEnv) : SyncInput where
  acc := st.acc
  tracking_enabled := st.tracking_enabled
  has_joined_today := st.has_joined_today
  username := env.username
  display_name := env.display_name
  timestamp := env.timestamp
  date := env.syncDate
  currentIdle := env.currentIdle
  outcomes := env.outcomes

/-- Run `sync_data()` against the current globals and fold its effects back
into them: the reconciled accumulator, and the cache file overwritten with
`[data]` whenever `save_to_cache` ran. -/
def applySync (st : AgentState) (env : SessionEnv) : AgentState × SyncResult :=
  let r := sync_data (mkSyncInput st env)
  ({ st with
      acc := r.accAfter
      cache := match r.cached with
        | some p => [p]
        | none => st.cache },
   r)

/-- `check_session_status`, tracker.py lines 657-725, for a completed status
request (`respStatus`, and the parsed `channel` field when it is 200).
`is_in_channel` is `channel == 'wfh-monitoring'` (line 671).  On first join
of the day (lines 676-684): set the flags and clear the accumulator.  On
NOT_TRACKING → TRACKING (lines 686-702): enable tracking, sync only if the
accumulator is non-empty, then truncate a non-empty cache file without
sending it.  On leaving (lines 703-708): sync, then disable tracking.  The
trailing safety check (lines 720-725) clears `has_joined_today` when
`last_join_date` is set and stale.  The second component reports the nested
`sync_data` run, if any. -/
def check_session_status (st : AgentState) (respStatus : ℕ)
    (channel : Option String) (today : String) (env : SessionEnv) :
    AgentState × Option SyncResult :=
  let stTr :=
    if respStatus = 200 then
      if channel = some "wfh-monitoring" then
        let stJ :=
          if ¬ st.has_joined_today ∨ st.last_join_date ≠ some today then
            { st with
                has_joined_today := true
                last_join_date := some today
                acc := [] }
          else st
        if ¬ stJ.tracking_enabled then
          let stT := { stJ with tracking_enabled := true }
          let stS :=
            if ¬ stT.acc.isEmpty then
              let (s, r) := applySync stT env
              (s, some r)
            else (stT, none)
          let stC :=
            if ¬ stS.1.cache.isEmpty then ({ stS.1 with cache := [] }, stS.2)
            else stS
          stC
        else (stJ, none)
      else
        if st.tracking_enabled then
          let (stS, r) := applySync st env
          ({ stS with tracking_enabled := false }, some r)
        else (st, none)
    else (st, none)
  let stSafe :=
    if stTr.1.last_join_date ≠ none ∧ stTr.1.last_join_date ≠ some today then
      { stTr.1 with has_joined_today := false }
    else stTr.1
  (stSafe, stTr.2)

/-- The observable steps of the day-rollover block in their execution order. -/
inductive RolloverEvent where
  | syncCalled
  | archiveCache (suffix : String)
  | resetFlags
  | clearAccum
deriving DecidableEq

/-- Result of the day-rollover check: the updated globals, the new
`current_day` local, the ordered event trace, the nested sync run (if any),
and the archived cache file (backup-name suffix and contents), if one was
made. -/
structure RolloverResult where
  state : AgentState
  current_day : String
  events : List RolloverEvent
  syncRes : Option SyncResult
  archived : Option (String × List Payload)

/-- The day-change block of `main_loop`, tracker.py lines 1017-1057.  When
`today_str != current_day`: (1) if tracking with a non-empty accumulator,
call `sync_data()` synchronously (lines 1025-1027); (2) if the cache file
exists (initially `cacheExists`, or just created by the sync's
`save_to_cache`), rename it to `CACHE_FILE.<current_day>` and write a fresh
`'[]'` (lines 1031-1041); (3) set `has_joined_today = False`,
`last_join_date = today`, `current_day = today_str` (lines 1044-1046);
(4) clear the accumulator if non-empty (lines 1049-1052).  Otherwise the
`elif` branch (lines 1055-1057) refreshes a stale `last_join_date`. -/
def day_rollover (st : AgentState) (current_day today_str today : String)
    (cacheExists : Bool) (env : SessionEnv) : RolloverResult :=
  if today_str ≠ current_day then
    let syncStep : AgentState × Option SyncResult × List RolloverEvent :=
      if st.tracking_enabled ∧ ¬ st.acc.isEmpty then
        let (s, r) := applySync st env
        (s, some r, [RolloverEvent.syncCalled])
      else (st, none, [])
    let st1 := syncStep.1
    let fileExists := cacheExists ||
      (match syncStep.2.1 with
        | some r => r.cached.isSome
        | none => false)
    let archStep : AgentState × Option (String × List Payload) × List RolloverEvent :=
      if fileExists then
        ({ st1 with cache := [] }, some (current_day, st1.cache),
          [RolloverEvent.archiveCache current_day])
      else (st1, none, [])
    let st3 : AgentState := { archStep.1 with
      has_joined_today := false
      last_join_date := some today }
    let clearStep : AgentState × List RolloverEvent :=
      if ¬ st3.acc.isEmpty then ({ st3 with acc := [] }, [RolloverEvent.clearAccum])
      else (st3, [])
    { state := clearStep.1
      current_day := today_str
      events := syncStep.2.2 ++ archStep.2.2 ++ [RolloverEvent.resetFlags]
        ++ clearStep.2
      syncRes := syncStep.2.1
      archived := archStep.2.1 }
  else if st.last_join_date ≠ some today then
    { state := { st with has_joined_today := false, last_join_date := some today }
      current_day := current_day
      events := []
      syncRes := none
      archived := none }
  else
    { state := st
      current_day := current_day
      events := []
      syncRes := none
      archived := none }

/-- Agent startup: `__main__` (tracker.py lines 1166-1186) installs signal
handlers and calls `main_loop`, whose initialization (lines 888-919) resets
the membership flags and clears the in-memory accumulator before the first
iteration.  Nothing on this path reads, rewrites or purges the cache file:
the only stale-entry purge in the module lives in `send_cached_data`
(lines 336-423), which is deprecated and has no caller. -/
def startup_state (cache : List Payload) : AgentState where
  tracking_enabled := false
  has_joined_today := false
  last_join_date := none
  acc := []
  cache := cache

/-- The outdated-entry sweep inside the deprecated, never-called
`send_cached_data`, tracker.py lines 373-391: an entry is removed when its
`date` field is truthy (non-empty) and differs from the current date. -/
def purge_outdated : List Payload → String → List Payload
  | [], _ => []
  | e :: es, d =>
    if e.date ≠ "" ∧ e.date ≠ d then purge_outdated es d
    else e :: purge_outdated es d

/-- A statement-level event for one module-global name inside one Python
function body, in source order: a use of the name (a load or a store), or a
`global` declaration naming it. -/
inductive NameEvent where
  | use
  | globalDecl
deriving DecidableEq

/-- CPython's symbol-table validation, on the event list of one name in one
function body: compiling the body raises
`SyntaxError: name '...' is used prior to global declaration` exactly when
some `global` declaration of the name is preceded, in the same body, by a
use of it.  The check runs while the enclosing module is compiled, before
any statement executes, so a module containing such a body fails to import
and none of its code ever runs. -/
def usedPriorToGlobalAux : Bool → List NameEvent → Bool
  | _, [] => false
  | _, NameEvent.use :: es => usedPriorToGlobalAux true es
  | seenUse, NameEvent.globalDecl :: es =>
    seenUse || usedPriorToGlobalAux seenUse es

/-- Whether compiling a function body with this event history for one name
is rejected with the use-prior-to-global-declaration SyntaxError. -/
def usedPriorToGlobal (evs : List NameEvent) : Bool :=
  usedPriorToGlobalAux false evs

/-- The events for the name `last_screenshot_time` in the body of
`screenshot_worker`, tracker.py lines 796-815: read at line 802
(`current_time - last_screenshot_time >= SCREENSHOT_INTERVAL`), declared
`global last_screenshot_time` at line 807, assigned at line 808. -/
def screenshot_worker_last_screenshot_time_events : List NameEvent :=
  [NameEvent.use, NameEvent.globalDecl, NameEvent.use]

/-- The events for the name `last_input` in the body of `on_activity`,
tracker.py lines 195-212: declared `global` at line 201 before the reads at
lines 205-207 and the assignment at line 212 — the declare-then-use pattern
every other function of the module follows. -/
def on_activity_last_input_events : List NameEvent :=
  [NameEvent.globalDecl, NameEvent.use, NameEvent.use]

theorem lookupD_applyTicks (evs : List (ℚ × Option String))
    (l : List (String × ℕ)) (app : String) :
    lookupD (applyTicks l evs) app = lookupD l app + tickCount evs app := by
  rw [lookupD, lookup?_applyTicks]
  by_cases ht : tickCount evs app = 0
  · simp [ht, lookupD]
  · simp [ht]

/-- C1: after a sync that receives HTTP 200, each app's accumulated seconds
equal its value at snapshot time, plus the ticks that landed between the
snapshot (`app_usage.copy()`, line 473) and the subtraction (lines 604-611),
minus exactly the snapshotted amount, floored at 0 (`max(0, ...)`), with the
key deleted exactly when the result is 0; equivalently the remaining value is
precisely the in-flight tick count, so the accumulator is never blindly
cleared and no tick is lost. -/
theorem success_sync_subtracts_exactly_snapshot
    (snap : List (String × ℕ)) (evs : List (ℚ × Option String))
    (hnodup : (snap.map Prod.fst).Nodup) (app : String) :
    lookupD (subtract_synced snap (applyTicks snap evs)) app
        = pySub (lookupD (applyTicks snap evs) app) (lookupD snap app)
    ∧ lookupD (subtract_synced snap (applyTicks snap evs)) app
        = tickCount evs app
    ∧ (lookup? (subtract_synced snap (applyTicks snap evs)) app = none
        ↔ tickCount evs app = 0) := by
  have hatD := lookupD_applyTicks evs snap app
  have hsub := lookup?_subtract snap hnodup (applyTicks snap evs) app
  rcases hs : lookup? snap app with _ | s
  · have hsD : lookupD snap app = 0 := by simp [lookupD, hs]
    by_cases ht : tickCount evs app = 0
    · have hlive : lookup? (applyTicks snap evs) app = none := by
        rw [lookup?_applyTicks, if_pos ht, hs]
      rw [hs, hlive] at hsub
      have hres : lookup? (subtract_synced snap (applyTicks snap evs)) app
          = none := hsub
      refine ⟨?_, ?_, ?_⟩
      · rw [lookupD, hres, hatD, hsD, ht, pySub_eq]
        rfl
      · rw [lookupD, hres, ht]
        rfl
      · simp [hres, ht]
    · have hlive : lookup? (applyTicks snap evs) app
          = some (lookupD snap app + tickCount evs app) := by
        rw [lookup?_applyTicks, if_neg ht]
      rw [hs, hlive] at hsub
      have hres : lookup? (subtract_synced snap (applyTicks snap evs)) app
          = some (lookupD snap app + tickCount evs app) := hsub
      refine ⟨?_, ?_, ?_⟩
      · rw [lookupD, hres, hatD, hsD, pySub_eq]
        simp
      · rw [lookupD, hres, hsD]
        simp
      · simp [hres, ht]
  · have hsD : lookupD snap app = s := by simp [lookupD, hs]
    by_cases ht : tickCount evs app = 0
    · have hlive : lookup? (applyTicks snap evs) app = some s := by
        rw [lookup?_applyTicks, if_pos ht, hs]
      rw [hs, hlive] at hsub
      have hres : lookup? (subtract_synced snap (applyTicks snap evs)) app
          = if pySub s s = 0 then none else some (pySub s s) := hsub
      have hz : pySub s s = 0 := by
        rw [pySub_eq]
        omega
      rw [if_pos hz] at hres
      refine ⟨?_, ?_, ?_⟩
      · rw [lookupD, hres, hatD, hsD, ht, pySub_eq]
        simp
      · rw [lookupD, hres, ht]
        rfl
      · simp [hres, ht]
    · have hlive : lookup? (applyTicks snap evs) app
          = some (lookupD snap app + tickCount evs app) := by
        rw [lookup?_applyTicks, if_neg ht]
      rw [hs, hlive] at hsub
      have hres : lookup? (subtract_synced snap (applyTicks snap evs)) app
          = if pySub (lookupD snap app + tickCount evs app) s = 0 then none
            else some (pySub (lookupD snap app + tickCount evs app) s) := hsub
      have hz : pySub (lookupD snap app + tickCount evs app) s
          = tickCount evs app := by
        rw [pySub_eq, hsD]
        omega
      rw [hz, if_neg ht] at hres
      refine ⟨?_, ?_, ?_⟩
      · rw [lookupD, hres, hatD, hsD, pySub_eq]
        simp only [Option.getD_some]
        omega
      · rw [lookupD, hres]
        rfl
      · simp [hres, ht]

/-- Witness for `success_sync_subtracts_exactly_snapshot`: snapshot
`{"browser": 2}`, one active tick on "browser" between snapshot and
subtraction; one second survives the subtraction. -/
theorem success_sync_subtracts_exactly_snapshot_witness :
    ((([("browser", 2)] : List (String × ℕ)).map Prod.fst).Nodup)
    ∧ (lookupD (subtract_synced [("browser", 2)]
          (applyTicks [("browser", 2)] [((0 : ℚ), some "browser")])) "browser"
        = pySub
            (lookupD (applyTicks [("browser", 2)] [((0 : ℚ), some "browser")])
              "browser")
            (lookupD [("browser", 2)] "browser")
      ∧ lookupD (subtract_synced [("browser", 2)]
          (applyTicks [("browser", 2)] [((0 : ℚ), some "browser")])) "browser"
        = tickCount [((0 : ℚ), some "browser")] "browser"
      ∧ (lookup? (subtract_synced [("browser", 2)]
          (applyTicks [("browser", 2)] [((0 : ℚ), some "browser")])) "browser"
            = none
        ↔ tickCount [((0 : ℚ), some "browser")] "browser" = 0)) :=
  ⟨by decide,
   success_sync_subtracts_exactly_snapshot [("browser", 2)]
     [((0 : ℚ), some "browser")] (by decide) "browser"⟩

/-- C2: when the current idle duration has reached `IDLE_THRESHOLD` the
per-second activity check changes nothing at all; and a tick adds exactly one
second, to exactly the detected foreground app, only when the idle duration
is below the threshold and a (truthy) app was detected. -/
theorem idle_at_threshold_tick_noop (l : List (String × ℕ)) (idle : ℚ)
    (a : Option String) :
    ((IDLE_THRESHOLD : ℚ) ≤ idle → activityTick l idle a = l)
    ∧ (∀ app, idle < (IDLE_THRESHOLD : ℚ) → a = some app → app ≠ "" →
        lookupD (activityTick l idle a) app = lookupD l app + 1)
    ∧ (∀ app, lookupD (activityTick l idle a) app ≠ lookupD l app →
        idle < (IDLE_THRESHOLD : ℚ) ∧ a = some app ∧ app ≠ "") := by
  refine ⟨?_, ?_, ?_⟩
  · intro hidle
    rw [activityTick, if_neg]
    rintro ⟨hlt, _⟩
    exact absurd hidle (not_le.mpr hlt)
  · intro app hidle ha hne
    rw [lookupD, lookup?_activityTick, if_pos ⟨hidle, ha, hne⟩]
    rfl
  · intro app hch
    by_contra hc
    apply hch
    rw [lookupD, lookup?_activityTick, if_neg hc]
    rfl

/-- Witness for `idle_at_threshold_tick_noop`: at idle 350 s ≥ 300 s the tick
is a no-op on `{"code": 3}`; at idle 10 s < 300 s with "code" in the
foreground it bumps "code" from 3 to 4. -/
theorem idle_at_threshold_tick_noop_witness :
    activityTick [("code", 3)] 350 (some "code") = [("code", 3)]
    ∧ lookupD (activityTick [("code", 3)] 10 (some "code")) "code" = 4 := by
  constructor
  · exact (idle_at_threshold_tick_noop [("code", 3)] 350 (some "code")).1
      (by norm_num [IDLE_THRESHOLD])
  · have h := (idle_at_threshold_tick_noop [("code", 3)] 10 (some "code")).2.1
      "code" (by norm_num [IDLE_THRESHOLD]) rfl (by decide)
    rw [h]
    decide

theorem pyRound2_eq (x : ℚ) (n : ℤ) (h1 : (n : ℚ) - 1 / 2 < x * 100)
    (h2 : x * 100 < (n : ℚ) + 1 / 2) : pyRound2 x = (n : ℚ) / 100 := by
  have hfloor : ⌊x * 100 + 1 / 2⌋ = n := by
    rw [Int.floor_eq_iff]
    constructor
    · linarith
    · linarith
  have hfract : Int.fract (x * 100) ≠ 1 / 2 := by
    intro hfr
    have hx : x * 100 = (⌊x * 100⌋ : ℚ) + 1 / 2 := by
      have hdef : x * 100 - (⌊x * 100⌋ : ℚ) = Int.fract (x * 100) :=
        Int.self_sub_floor (x * 100)
      rw [hfr] at hdef
      linarith
    have hm1 : (n : ℚ) - 1 < (⌊x * 100⌋ : ℚ) := by linarith
    have hm2 : ((⌊x * 100⌋ : ℚ)) < n := by linarith
    have hi1 : n - 1 < ⌊x * 100⌋ := by exact_mod_cast hm1
    have hi2 : ⌊x * 100⌋ < n := by exact_mod_cast hm2
    omega
  rw [pyRound2, if_neg hfract, round_eq, hfloor]

/-- C10: `total_active_time` is the raw second total divided by 60 and
rounded once to two decimals (tracker.py lines 491-501), computed before any
per-app rounding; with two apps at 100 s each the payload's total (3.33 min)
differs from the sum of its independently rounded per-app minutes
(1.67 + 1.67 = 3.34). -/
theorem total_active_time_rounds_raw_sum
    (username display_name timestamp date : String)
    (items : List (String × ℕ)) (currentIdle : ℚ) :
    (buildPayload username display_name items timestamp date
        currentIdle).total_active_time
      = pyRound2 (((items.map Prod.snd).sum : ℚ) / 60)
    ∧ (buildPayload "u" "u" [("a", 100), ("b", 100)] "t" "d"
        0).total_active_time
      ≠ (((buildPayload "u" "u" [("a", 100), ("b", 100)] "t" "d" 0).apps.map
          Prod.snd).sum) := by
  constructor
  · rfl
  · have ha : pyRound2 ((100 : ℚ) / 60) = 167 / 100 := by
      rw [pyRound2_eq ((100 : ℚ) / 60) 167 (by norm_num) (by norm_num)]
      norm_num
    have ht : pyRound2 ((200 : ℚ) / 60) = 333 / 100 := by
      rw [pyRound2_eq ((200 : ℚ) / 60) 333 (by norm_num) (by norm_num)]
      norm_num
    have htot : (buildPayload "u" "u" [("a", 100), ("b", 100)] "t" "d"
        0).total_active_time = 333 / 100 := by
      show pyRound2 ((totalSeconds [("a", 100), ("b", 100)] : ℚ) / 60) = 333 / 100
      rw [show ((totalSeconds [("a", 100), ("b", 100)] : ℕ) : ℚ) = 200 by norm_num [totalSeconds]]
      exact ht
    have happs : (buildPayload "u" "u" [("a", 100), ("b", 100)] "t" "d" 0).apps
        = [("a", 167 / 100), ("b", 167 / 100)] := by
      show normalizeApps [("a", 100), ("b", 100)] = [("a", 167 / 100), ("b", 167 / 100)]
      rw [normalizeApps]
      rw [show (([("a", 100), ("b", 100)] : List (String × ℕ)).map
            fun p => (p.1, pyRound2 ((p.2 : ℚ) / 60)))
          = [("a", (167 : ℚ) / 100), ("b", 167 / 100)] by
        simp only [List.map_cons, List.map_nil]
        rw [show (((100 : ℕ) : ℚ)) = 100 by norm_num, ha]]
      norm_num [List.filter]
    rw [htot, happs]
    norm_num

theorem pyRound2_one : pyRound2 1 = 1 := by
  rw [pyRound2_eq 1 100 (by norm_num) (by norm_num)]
  norm_num

theorem pyRound2_three_quarters : pyRound2 (3 / 4) = 3 / 4 := by
  rw [pyRound2_eq (3 / 4) 75 (by norm_num) (by norm_num)]
  norm_num

theorem normalizeApps_browser60 :
    normalizeApps [("browser", 60)] = [("browser", 1)] := by
  rw [normalizeApps]
  rw [show (([("browser", 60)] : List (String × ℕ)).map
        fun p => (p.1, pyRound2 ((p.2 : ℚ) / 60)))
      = [("browser", (1 : ℚ))] by
    simp only [List.map_cons, List.map_nil]
    rw [show (((60 : ℕ) : ℚ)) / 60 = 1 by norm_num, pyRound2_one]]
  norm_num [List.filter]

theorem normalizeApps_browser45 :
    normalizeApps [("browser", 45)] = [("browser", 3 / 4)] := by
  rw [normalizeApps]
  rw [show (([("browser", 45)] : List (String × ℕ)).map
        fun p => (p.1, pyRound2 ((p.2 : ℚ) / 60)))
      = [("browser", (3 : ℚ) / 4)] by
    simp only [List.map_cons, List.map_nil]
    rw [show (((45 : ℕ) : ℚ)) / 60 = 3 / 4 by norm_num, pyRound2_three_quarters]]
  norm_num [List.filter]

theorem acc_not_empty_of_normalized (inp : SyncInput)
    (hnorm : ¬ (normalizeApps inp.acc).isEmpty) : inp.acc.isEmpty = false := by
  rcases h2 : inp.acc with _ | ⟨p, ps⟩
  · exfalso
    apply hnorm
    rw [h2]
    rfl
  · rfl

theorem validate_of_username (inp : SyncInput) (huser : inp.username ≠ "") :
    validate_data_before_sync (buildPayload inp.username inp.display_name
      inp.acc inp.timestamp inp.date inp.currentIdle) = true := by
  show decide ((buildPayload inp.username inp.display_name inp.acc
    inp.timestamp inp.date inp.currentIdle).username ≠ "") = true
  exact decide_eq_true huser

theorem syncLoop_all_non200 (outcomes : ℕ → AttemptResult)
    (h : ∀ i, ∃ c, outcomes i = AttemptResult.status c ∧ c ≠ 200) :
    ∃ c, c ≠ 200 ∧ syncLoopGo outcomes 0 max_retries 2 none
        = ⟨3, [2, 4], LoopExit.exhausted (some c)⟩ := by
  obtain ⟨c0, h0, hc0⟩ := h 0
  obtain ⟨c1, h1, hc1⟩ := h 1
  obtain ⟨c2, h2, hc2⟩ := h 2
  refine ⟨c2, hc2, ?_⟩
  show syncLoopGo outcomes 0 3 2 none = _
  rw [show (3 : ℕ) = 2 + 1 from rfl, syncLoopGo, h0]
  simp only [hc0, if_false, if_neg (by omega : ¬ (2 : ℕ) = 0)]
  rw [show (2 : ℕ) = 1 + 1 from rfl, syncLoopGo, h1]
  simp only [hc1, if_false, if_neg (by omega : ¬ (1 : ℕ) = 0)]
  rw [syncLoopGo, h2]
  simp only [hc2, if_false, if_pos rfl]
  rfl

theorem syncLoop_all_connError (outcomes : ℕ → AttemptResult)
    (h0 : outcomes 0 = AttemptResult.connError)
    (h1 : outcomes 1 = AttemptResult.connError)
    (h2 : outcomes 2 = AttemptResult.connError) :
    syncLoopGo outcomes 0 max_retries 2 none
      = ⟨3, [2, 4], LoopExit.cachedReturn⟩ := by
  show syncLoopGo outcomes 0 3 2 none = _
  rw [show (3 : ℕ) = 2 + 1 from rfl, syncLoopGo, h0]
  simp only [if_neg (by omega : ¬ (2 : ℕ) = 0)]
  rw [show (2 : ℕ) = 1 + 1 from rfl, syncLoopGo, h1]
  simp only [if_neg (by omega : ¬ (1 : ℕ) = 0)]
  rw [syncLoopGo, h2]
  simp only [if_pos rfl]
  rfl

theorem syncLoop_connError_then_200 (outcomes : ℕ → AttemptResult)
    (h0 : outcomes 0 = AttemptResult.connError)
    (h1 : outcomes 1 = AttemptResult.status 200) :
    syncLoopGo outcomes 0 max_retries 2 none = ⟨2, [2], LoopExit.broke⟩ := by
  show syncLoopGo outcomes 0 3 2 none = _
  rw [show (3 : ℕ) = 2 + 1 from rfl, syncLoopGo, h0]
  simp only [if_neg (by omega : ¬ (2 : ℕ) = 0)]
  rw [show (2 : ℕ) = 1 + 1 from rfl, syncLoopGo, h1]
  simp only [if_pos rfl]
  rfl

theorem sync_data_broke_eq (inp : SyncInput)
    (htrack : inp.tracking_enabled = true) (huser : inp.username ≠ "")
    (hnorm : ¬ (normalizeApps inp.acc).isEmpty) (p : ℕ) (sl : List ℕ)
    (hloop : syncLoopGo inp.outcomes 0 max_retries 2 none
      = ⟨p, sl, LoopExit.broke⟩) :
    sync_data inp
      = ⟨p, sl, none,
          some (buildPayload inp.username inp.display_name inp.acc
            inp.timestamp inp.date inp.currentIdle),
          true, subtract_synced inp.acc inp.acc⟩ := by
  have hacc := acc_not_empty_of_normalized inp hnorm
  have hval := validate_of_username inp huser
  rw [sync_data]
  rw [if_neg (by simp [hacc]), if_neg (by simpa using hnorm)]
  rw [if_neg (by simp [hval]), if_pos (by simp [htrack]), hloop]

theorem sync_data_exhausted_eq (inp : SyncInput)
    (htrack : inp.tracking_enabled = true) (huser : inp.username ≠ "")
    (hnorm : ¬ (normalizeApps inp.acc).isEmpty) (p : ℕ) (sl : List ℕ)
    (r : Option ℕ)
    (hloop : syncLoopGo inp.outcomes 0 max_retries 2 none
      = ⟨p, sl, LoopExit.exhausted r⟩) :
    sync_data inp
      = ⟨p, sl,
          some (buildPayload inp.username inp.display_name inp.acc
            inp.timestamp inp.date inp.currentIdle),
          some (buildPayload inp.username inp.display_name inp.acc
            inp.timestamp inp.date inp.currentIdle),
          false, inp.acc⟩ := by
  have hacc := acc_not_empty_of_normalized inp hnorm
  have hval := validate_of_username inp huser
  rw [sync_data]
  rw [if_neg (by simp [hacc]), if_neg (by simpa using hnorm)]
  rw [if_neg (by simp [hval]), if_pos (by simp [htrack]), hloop]

theorem sync_data_cachedReturn_eq (inp : SyncInput)
    (htrack : inp.tracking_enabled = true) (huser : inp.username ≠ "")
    (hnorm : ¬ (normalizeApps inp.acc).isEmpty) (p : ℕ) (sl : List ℕ)
    (hloop : syncLoopGo inp.outcomes 0 max_retries 2 none
      = ⟨p, sl, LoopExit.cachedReturn⟩) :
    sync_data inp
      = ⟨p, sl,
          some (buildPayload inp.username inp.display_name inp.acc
            inp.timestamp inp.date inp.currentIdle),
          some (buildPayload inp.username inp.display_name inp.acc
            inp.timestamp inp.date inp.currentIdle),
          false, inp.acc⟩ := by
  have hacc := acc_not_empty_of_normalized inp hnorm
  have hval := validate_of_username inp huser
  rw [sync_data]
  rw [if_neg (by simp [hacc]), if_neg (by simpa using hnorm)]
  rw [if_neg (by simp [hval]), if_pos (by simp [htrack]), hloop]

/-- C3: with tracking enabled and every attempt answered by a non-200 status,
the POST is attempted exactly `max_retries = 3` times with strictly
increasing sleeps of 2 s then 4 s, the payload is cached carrying the current
date, and the live accumulator is left unchanged (no subtraction). -/
theorem failing_endpoint_three_attempts_then_cache (inp : SyncInput)
    (htrack : inp.tracking_enabled = true)
    (huser : inp.username ≠ "")
    (hnorm : ¬ (normalizeApps inp.acc).isEmpty)
    (hfail : ∀ i, ∃ c, inp.outcomes i = AttemptResult.status c ∧ c ≠ 200) :
    (sync_data inp).posts = 3
    ∧ (sync_data inp).sleeps = [2, 4]
    ∧ List.Chain' (fun a b => a < b) (sync_data inp).sleeps
    ∧ (sync_data inp).cached
        = some (buildPayload inp.username inp.display_name inp.acc
            inp.timestamp inp.date inp.currentIdle)
    ∧ ((sync_data inp).cached.map Payload.date) = some inp.date
    ∧ (sync_data inp).subtracted = false
    ∧ (sync_data inp).accAfter = inp.acc := by
  have hacc := acc_not_empty_of_normalized inp hnorm
  have hval := validate_of_username inp huser
  obtain ⟨c, hc, hloop⟩ := syncLoop_all_non200 inp.outcomes hfail
  have hs : sync_data inp
      = ⟨3, [2, 4],
          some (buildPayload inp.username inp.display_name inp.acc
            inp.timestamp inp.date inp.currentIdle),
          some (buildPayload inp.username inp.display_name inp.acc
            inp.timestamp inp.date inp.currentIdle),
          false, inp.acc⟩ := by
    rw [sync_data]
    rw [if_neg (by simp [hacc]), if_neg (by simpa using hnorm)]
    rw [if_neg (by simp [hval]), if_pos (by simp [htrack]), hloop]
  rw [hs]
  refine ⟨rfl, rfl, ?_, rfl, rfl, rfl, rfl⟩
  simp

/-- Amended C4: a `ConnectionError` on a non-final attempt does not abort the
retry sequence — the sync sleeps with exponential backoff and retries (so a
first-attempt connection error followed by a 200 still delivers and
subtracts); only when the final attempt also raises a `ConnectionError` does
the payload get cached, with the function returning early and the
accumulator unchanged. -/
theorem conn_error_retry_behaviour (inp : SyncInput)
    (htrack : inp.tracking_enabled = true)
    (huser : inp.username ≠ "")
    (hnorm : ¬ (normalizeApps inp.acc).isEmpty) :
    ((inp.outcomes 0 = AttemptResult.connError
      ∧ inp.outcomes 1 = AttemptResult.connError
      ∧ inp.outcomes 2 = AttemptResult.connError) →
      (sync_data inp).posts = 3
      ∧ (sync_data inp).sleeps = [2, 4]
      ∧ (sync_data inp).cached
          = some (buildPayload inp.username inp.display_name inp.acc
              inp.timestamp inp.date inp.currentIdle)
      ∧ (sync_data inp).subtracted = false
      ∧ (sync_data inp).accAfter = inp.acc)
    ∧ ((inp.outcomes 0 = AttemptResult.connError
      ∧ inp.outcomes 1 = AttemptResult.status 200) →
      (sync_data inp).posts = 2
      ∧ (sync_data inp).sleeps = [2]
      ∧ (sync_data inp).cached = none
      ∧ (sync_data inp).subtracted = true) := by
  have hacc := acc_not_empty_of_normalized inp hnorm
  have hval := validate_of_username inp huser
  constructor
  · rintro ⟨h0, h1, h2⟩
    have hloop := syncLoop_all_connError inp.outcomes h0 h1 h2
    have hs : sync_data inp
        = ⟨3, [2, 4],
            some (buildPayload inp.username inp.display_name inp.acc
              inp.timestamp inp.date inp.currentIdle),
            some (buildPayload inp.username inp.display_name inp.acc
              inp.timestamp inp.date inp.currentIdle),
            false, inp.acc⟩ := by
      rw [sync_data]
      rw [if_neg (by simp [hacc]), if_neg (by simpa using hnorm)]
      rw [if_neg (by simp [hval]), if_pos (by simp [htrack]), hloop]
    rw [hs]
    exact ⟨rfl, rfl, rfl, rfl, rfl⟩
  · rintro ⟨h0, h1⟩
    have hloop := syncLoop_connError_then_200 inp.outcomes h0 h1
    have hs : sync_data inp
        = ⟨2, [2], none,
            some (buildPayload inp.username inp.display_name inp.acc
              inp.timestamp inp.date inp.currentIdle),
            true, subtract_synced inp.acc inp.acc⟩ := by
      rw [sync_data]
      rw [if_neg (by simp [hacc]), if_neg (by simpa using hnorm)]
      rw [if_neg (by simp [hval]), if_pos (by simp [htrack]), hloop]
    rw [hs]
    exact ⟨rfl, rfl, rfl, rfl⟩

/-- A concrete sync input whose first attempt raises `ConnectionError` and
whose second attempt returns HTTP 200. -/
def inpC4 : SyncInput where
  acc := [("browser", 60)]
  tracking_enabled := true
  has_joined_today := true
  username := "u"
  display_name := "u"
  timestamp := "2026-10-12T10:00:00"
  date := "2026-10-12"
  currentIdle := 0
  outcomes := fun i => if i = 0 then AttemptResult.connError
    else AttemptResult.status 200

/-- Counterexample to C4 as stated: on `inpC4` the first attempt is a
connection-level failure, yet the sync does not abort the remaining retries
and does not fall through to caching — it sleeps 2 s, posts a second time,
succeeds, subtracts, and caches nothing. -/
theorem conn_error_abort_counterexample :
    inpC4.outcomes 0 = AttemptResult.connError
    ∧ (sync_data inpC4).posts = 2
    ∧ (sync_data inpC4).sleeps = [2]
    ∧ (sync_data inpC4).cached = none
    ∧ (sync_data inpC4).subtracted = true := by
  have hnorm : ¬ (normalizeApps inpC4.acc).isEmpty := by
    rw [show inpC4.acc = [("browser", 60)] from rfl, normalizeApps_browser60]
    decide
  have hloop := syncLoop_connError_then_200 inpC4.outcomes rfl rfl
  have hs := sync_data_broke_eq inpC4 rfl (by decide) hnorm 2 [2] hloop
  rw [hs]
  exact ⟨rfl, rfl, rfl, rfl, rfl⟩

/-- Witness for `conn_error_retry_behaviour`: the all-connection-error branch
at a concrete input (same accumulator as `inpC4`, every attempt raising
`ConnectionError`). -/
def inpC4all : SyncInput :=
  { inpC4 with outcomes := fun _ => AttemptResult.connError }

theorem conn_error_retry_behaviour_witness :
    inpC4all.tracking_enabled = true
    ∧ inpC4all.username ≠ ""
    ∧ ¬ (normalizeApps inpC4all.acc).isEmpty
    ∧ (sync_data inpC4all).posts = 3
    ∧ (sync_data inpC4all).sleeps = [2, 4]
    ∧ (sync_data inpC4all).cached
        = some (buildPayload inpC4all.username inpC4all.display_name
            inpC4all.acc inpC4all.timestamp inpC4all.date inpC4all.currentIdle)
    ∧ (sync_data inpC4all).subtracted = false
    ∧ (sync_data inpC4all).accAfter = inpC4all.acc := by
  have hnorm : ¬ (normalizeApps inpC4all.acc).isEmpty := by
    rw [show inpC4all.acc = [("browser", 60)] from rfl, normalizeApps_browser60]
    decide
  have h := (conn_error_retry_behaviour inpC4all rfl (by decide) hnorm).1
    ⟨rfl, rfl, rfl⟩
  exact ⟨rfl, by decide, hnorm, h⟩

/-- C5: a sync cycle that builds a (valid, non-empty) payload while tracking
is disabled sends no POST and sleeps never; the payload is written to the
durable cache exactly when `has_joined_today`, and the live accumulator is
left completely unchanged with no subtraction. -/
theorem not_tracking_cache_iff_joined (inp : SyncInput)
    (htrack : inp.tracking_enabled = false)
    (huser : inp.username ≠ "")
    (hnorm : ¬ (normalizeApps inp.acc).isEmpty) :
    (sync_data inp).posts = 0
    ∧ (sync_data inp).sleeps = []
    ∧ (sync_data inp).cached
        = (if inp.has_joined_today then
            some (buildPayload inp.username inp.display_name inp.acc
              inp.timestamp inp.date inp.currentIdle)
           else none)
    ∧ (sync_data inp).subtracted = false
    ∧ (sync_data inp).accAfter = inp.acc := by
  have hacc := acc_not_empty_of_normalized inp hnorm
  have hval := validate_of_username inp huser
  cases hj : inp.has_joined_today with
  | true =>
    have hs : sync_data inp
        = ⟨0, [],
            some (buildPayload inp.username inp.display_name inp.acc
              inp.timestamp inp.date inp.currentIdle),
            some (buildPayload inp.username inp.display_name inp.acc
              inp.timestamp inp.date inp.currentIdle),
            false, inp.acc⟩ := by
      rw [sync_data]
      rw [if_neg (by simp [hacc]), if_neg (by simpa using hnorm)]
      rw [if_neg (by simp [hval]), if_neg (by simp [htrack]), if_pos (by simp [hj])]
    rw [hs]
    exact ⟨rfl, rfl, by simp, rfl, rfl⟩
  | false =>
    have hs : sync_data inp
        = ⟨0, [], none,
            some (buildPayload inp.username inp.display_name inp.acc
              inp.timestamp inp.date inp.currentIdle),
            false, inp.acc⟩ := by
      rw [sync_data]
      rw [if_neg (by simp [hacc]), if_neg (by simpa using hnorm)]
      rw [if_neg (by simp [hval]), if_neg (by simp [htrack]), if_neg (by simp [hj])]
    rw [hs]
    exact ⟨rfl, rfl, by simp, rfl, rfl⟩

/-- A concrete sync input whose every attempt is answered with HTTP 500. -/
def inpC3 : SyncInput :=
  { inpC4 with outcomes := fun _ => AttemptResult.status 500 }

theorem failing_endpoint_three_attempts_then_cache_witness :
    inpC3.tracking_enabled = true
    ∧ inpC3.username ≠ ""
    ∧ ¬ (normalizeApps inpC3.acc).isEmpty
    ∧ (sync_data inpC3).posts = 3
    ∧ (sync_data inpC3).sleeps = [2, 4]
    ∧ List.Chain' (fun a b => a < b) (sync_data inpC3).sleeps
    ∧ (sync_data inpC3).cached
        = some (buildPayload inpC3.username inpC3.display_name inpC3.acc
            inpC3.timestamp inpC3.date inpC3.currentIdle)
    ∧ ((sync_data inpC3).cached.map Payload.date) = some inpC3.date
    ∧ (sync_data inpC3).subtracted = false
    ∧ (sync_data inpC3).accAfter = inpC3.acc := by
  have hnorm : ¬ (normalizeApps inpC3.acc).isEmpty := by
    rw [show inpC3.acc = [("browser", 60)] from rfl, normalizeApps_browser60]
    decide
  have h := failing_endpoint_three_attempts_then_cache inpC3 rfl (by decide)
    hnorm (fun i => ⟨500, rfl, by decide⟩)
  exact ⟨rfl, by decide, hnorm, h⟩

/-- A concrete sync input with tracking disabled and `has_joined_today`. -/
def inpC5 : SyncInput :=
  { inpC4 with tracking_enabled := false }

theorem not_tracking_cache_iff_joined_witness :
    inpC5.tracking_enabled = false
    ∧ inpC5.username ≠ ""
    ∧ ¬ (normalizeApps inpC5.acc).isEmpty
    ∧ (sync_data inpC5).posts = 0
    ∧ (sync_data inpC5).sleeps = []
    ∧ (sync_data inpC5).cached
        = (if inpC5.has_joined_today then
            some (buildPayload inpC5.username inpC5.display_name inpC5.acc
              inpC5.timestamp inpC5.date inpC5.currentIdle)
           else none)
    ∧ (sync_data inpC5).subtracted = false
    ∧ (sync_data inpC5).accAfter = inpC5.acc := by
  have hnorm : ¬ (normalizeApps inpC5.acc).isEmpty := by
    rw [show inpC5.acc = [("browser", 60)] from rfl, normalizeApps_browser60]
    decide
  have h := not_tracking_cache_iff_joined inpC5 rfl (by decide) hnorm
  exact ⟨rfl, by decide, hnorm, h⟩

/-- C6: when the status poll reports the user in `wfh-monitoring` while
tracking is disabled and this is the first join of the local day, the poller
sets `has_joined_today`, sets `last_join_date = today`, clears the
accumulator, enables tracking, makes no POST (the immediate sync is skipped
on the freshly cleared, hence empty, accumulator), and truncates the cache
file without sending its contents. -/
theorem first_join_clears_accumulator_and_cache (st : AgentState)
    (today : String) (env : SessionEnv)
    (htrack : st.tracking_enabled = false)
    (hfirst : ¬ st.has_joined_today ∨ st.last_join_date ≠ some today) :
    (check_session_status st 200 (some "wfh-monitoring") today env).1.tracking_enabled
        = true
    ∧ (check_session_status st 200 (some "wfh-monitoring") today env).1.has_joined_today
        = true
    ∧ (check_session_status st 200 (some "wfh-monitoring") today env).1.last_join_date
        = some today
    ∧ (check_session_status st 200 (some "wfh-monitoring") today env).1.acc = []
    ∧ (check_session_status st 200 (some "wfh-monitoring") today env).1.cache = []
    ∧ (check_session_status st 200 (some "wfh-monitoring") today env).2 = none := by
  have hfirst2 : st.has_joined_today = false ∨ ¬ st.last_join_date = some today := by
    rcases hfirst with h | h
    · exact Or.inl (by simpa using h)
    · exact Or.inr (by simpa using h)
  rcases hcache : st.cache with _ | ⟨p, ps⟩ <;>
    simp [check_session_status, htrack, hfirst, hfirst2, hcache]

/-- Concrete states for the first-join scenario: a stale cached payload from
the previous day and a nonzero accumulator, before any join today. -/
def cachedPayloadC8 : Payload where
  username := "u"
  display_name := "u"
  apps := [("browser", 3 / 4)]
  timestamp := "2026-10-11T12:00:00"
  date := "2026-10-11"
  idle_time := 0
  total_active_time := 3 / 4

def stC6 : AgentState where
  tracking_enabled := false
  has_joined_today := false
  last_join_date := none
  acc := [("idle-app", 5)]
  cache := [cachedPayloadC8]

def envC6 : SessionEnv where
  username := "u"
  display_name := "u"
  timestamp := "2026-10-12T00:00:01"
  syncDate := "2026-10-12"
  currentIdle := 0
  outcomes := fun _ => AttemptResult.status 500

theorem first_join_clears_accumulator_and_cache_witness :
    stC6.tracking_enabled = false
    ∧ (¬ stC6.has_joined_today ∨ stC6.last_join_date ≠ some "2026-10-12")
    ∧ (check_session_status stC6 200 (some "wfh-monitoring") "2026-10-12"
        envC6).1.tracking_enabled = true
    ∧ (check_session_status stC6 200 (some "wfh-monitoring") "2026-10-12"
        envC6).1.has_joined_today = true
    ∧ (check_session_status stC6 200 (some "wfh-monitoring") "2026-10-12"
        envC6).1.last_join_date = some "2026-10-12"
    ∧ (check_session_status stC6 200 (some "wfh-monitoring") "2026-10-12"
        envC6).1.acc = []
    ∧ (check_session_status stC6 200 (some "wfh-monitoring") "2026-10-12"
        envC6).1.cache = []
    ∧ (check_session_status stC6 200 (some "wfh-monitoring") "2026-10-12"
        envC6).2 = none := by
  have hfirst : ¬ stC6.has_joined_today ∨ stC6.last_join_date ≠ some "2026-10-12" :=
    Or.inl (by decide)
  exact ⟨rfl, hfirst,
    first_join_clears_accumulator_and_cache stC6 "2026-10-12" envC6 rfl hfirst⟩

theorem sync_data_tracking_built (inp : SyncInput)
    (htrack : inp.tracking_enabled = true) (huser : inp.username ≠ "")
    (hnorm : ¬ (normalizeApps inp.acc).isEmpty) :
    (sync_data inp).built
      = some (buildPayload inp.username inp.display_name inp.acc
          inp.timestamp inp.date inp.currentIdle) := by
  rcases hloop : syncLoopGo inp.outcomes 0 max_retries 2 none with ⟨p, sl, ek⟩
  cases ek with
  | broke =>
    rw [sync_data_broke_eq inp htrack huser hnorm p sl hloop]
  | exhausted r =>
    rw [sync_data_exhausted_eq inp htrack huser hnorm p sl r hloop]
  | cachedReturn =>
    rw [sync_data_cachedReturn_eq inp htrack huser hnorm p sl hloop]

/-- Amended C7: on a local-date change while tracking with a non-empty
accumulator, the rollover performs, in order: one synchronous final sync of
the accumulator (whose built payload carries the normalized per-app
minutes); then the cache file is archived under the previous date and
replaced by a fresh empty cache; then `has_joined_today` is reset to false
and `last_join_date` set to today; then the accumulator is cleared — the
flag reset precedes the accumulator clear, and the explicit clear step is
emitted only when the sync left the accumulator non-empty. -/
theorem rollover_syncs_archives_resets_then_clears (st : AgentState)
    (current_day today_str today : String) (env : SessionEnv)
    (hday : today_str ≠ current_day)
    (htrack : st.tracking_enabled = true)
    (hacc : st.acc.isEmpty = false)
    (huser : env.username ≠ "")
    (hnorm : ¬ (normalizeApps st.acc).isEmpty) :
    (day_rollover st current_day today_str today true env).syncRes
        = some (sync_data (mkSyncInput st env))
    ∧ (sync_data (mkSyncInput st env)).built
        = some (buildPayload env.username env.display_name st.acc
            env.timestamp env.syncDate env.currentIdle)
    ∧ (day_rollover st current_day today_str today true env).archived
        = some (current_day, (applySync st env).1.cache)
    ∧ (day_rollover st current_day today_str today true env).state.cache = []
    ∧ (day_rollover st current_day today_str today true
        env).state.has_joined_today = false
    ∧ (day_rollover st current_day today_str today true
        env).state.last_join_date = some today
    ∧ (day_rollover st current_day today_str today true env).state.acc = []
    ∧ (day_rollover st current_day today_str today true env).current_day
        = today_str
    ∧ (day_rollover st current_day today_str today true env).events
        = [RolloverEvent.syncCalled, RolloverEvent.archiveCache current_day,
           RolloverEvent.resetFlags]
          ++ (if (sync_data (mkSyncInput st env)).accAfter.isEmpty then []
              else [RolloverEvent.clearAccum]) := by
  have hbuilt := sync_data_tracking_built (mkSyncInput st env) htrack huser hnorm
  by_cases hE : (sync_data (mkSyncInput st env)).accAfter.isEmpty
  · have hnil : (sync_data (mkSyncInput st env)).accAfter = [] :=
      List.isEmpty_iff.mp hE
    refine ⟨?_, hbuilt, ?_, ?_, ?_, ?_, ?_, ?_, ?_⟩ <;>
      simp [day_rollover, applySync, hday, htrack, hacc, hE, hnil]
  · refine ⟨?_, hbuilt, ?_, ?_, ?_, ?_, ?_, ?_, ?_⟩ <;>
      simp [day_rollover, applySync, hday, htrack, hacc, hE]

/-- The day-rollover scenario: previous day 2026-10-11, 45 s on "browser",
tracking enabled, and a failing endpoint (every attempt HTTP 500), so the
accumulator is still non-empty when the post-archive clear step runs. -/
def stC7 : AgentState where
  tracking_enabled := true
  has_joined_today := true
  last_join_date := some "2026-10-11"
  acc := [("browser", 45)]
  cache := []

def envC7 : SessionEnv where
  username := "u"
  display_name := "u"
  timestamp := "2026-10-12T00:00:01"
  syncDate := "2026-10-12"
  currentIdle := 0
  outcomes := fun _ => AttemptResult.status 500

/-- Counterexample to C7 as stated: the rollover's observable step order is
sync, archive, reset-flags, clear-accumulator — the membership flags are
reset (tracker.py lines 1044-1045) before the accumulator is cleared (lines
1049-1052), not after as the claim's ordering ("then the accumulator is
cleared; then has_joined_today is reset") requires. -/
theorem rollover_clear_order_counterexample :
    (day_rollover stC7 "2026-10-11" "2026-10-12" "2026-10-12" true envC7).events
      = [RolloverEvent.syncCalled, RolloverEvent.archiveCache "2026-10-11",
         RolloverEvent.resetFlags, RolloverEvent.clearAccum]
    ∧ (day_rollover stC7 "2026-10-11" "2026-10-12" "2026-10-12" true
        envC7).events
      ≠ [RolloverEvent.syncCalled, RolloverEvent.archiveCache "2026-10-11",
         RolloverEvent.clearAccum, RolloverEvent.resetFlags] := by
  have hnorm : ¬ (normalizeApps (mkSyncInput stC7 envC7).acc).isEmpty := by
    rw [show (mkSyncInput stC7 envC7).acc = [("browser", 45)] from rfl,
      normalizeApps_browser45]
    decide
  obtain ⟨c, hc, hloop⟩ := syncLoop_all_non200 (mkSyncInput stC7 envC7).outcomes
    (fun i => ⟨500, rfl, by decide⟩)
  have hs := sync_data_exhausted_eq (mkSyncInput stC7 envC7) rfl (by decide)
    hnorm 3 [2, 4] (some c) hloop
  have haccAfter : (sync_data (mkSyncInput stC7 envC7)).accAfter
      = [("browser", 45)] := by
    rw [hs]
    rfl
  have hne : ("2026-10-12" : String) ≠ "2026-10-11" := by decide
  have htr : stC7.tracking_enabled = true := rfl
  have hae : stC7.acc.isEmpty = false := rfl
  have hev : (day_rollover stC7 "2026-10-11" "2026-10-12" "2026-10-12" true
      envC7).events
      = [RolloverEvent.syncCalled, RolloverEvent.archiveCache "2026-10-11",
         RolloverEvent.resetFlags, RolloverEvent.clearAccum] := by
    simp [day_rollover, applySync, hne, htr, hae, haccAfter]
  refine ⟨hev, ?_⟩
  rw [hev]
  decide

/-- Scenario-D environment: the final sync succeeds on the first attempt. -/
def envC7D : SessionEnv :=
  { envC7 with outcomes := fun _ => AttemptResult.status 200 }

theorem rollover_syncs_archives_resets_then_clears_witness :
    ("2026-10-12" : String) ≠ "2026-10-11"
    ∧ stC7.tracking_enabled = true
    ∧ stC7.acc.isEmpty = false
    ∧ envC7D.username ≠ ""
    ∧ ¬ (normalizeApps stC7.acc).isEmpty
    ∧ normalizeApps stC7.acc = [("browser", 3 / 4)]
    ∧ ((day_rollover stC7 "2026-10-11" "2026-10-12" "2026-10-12" true
          envC7D).syncRes = some (sync_data (mkSyncInput stC7 envC7D))
      ∧ (sync_data (mkSyncInput stC7 envC7D)).built
          = some (buildPayload envC7D.username envC7D.display_name stC7.acc
              envC7D.timestamp envC7D.syncDate envC7D.currentIdle)
      ∧ (day_rollover stC7 "2026-10-11" "2026-10-12" "2026-10-12" true
          envC7D).archived = some ("2026-10-11", (applySync stC7 envC7D).1.cache)
      ∧ (day_rollover stC7 "2026-10-11" "2026-10-12" "2026-10-12" true
          envC7D).state.cache = []
      ∧ (day_rollover stC7 "2026-10-11" "2026-10-12" "2026-10-12" true
          envC7D).state.has_joined_today = false
      ∧ (day_rollover stC7 "2026-10-11" "2026-10-12" "2026-10-12" true
          envC7D).state.last_join_date = some "2026-10-12"
      ∧ (day_rollover stC7 "2026-10-11" "2026-10-12" "2026-10-12" true
          envC7D).state.acc = []
      ∧ (day_rollover stC7 "2026-10-11" "2026-10-12" "2026-10-12" true
          envC7D).current_day = "2026-10-12"
      ∧ (day_rollover stC7 "2026-10-11" "2026-10-12" "2026-10-12" true
          envC7D).events
          = [RolloverEvent.syncCalled, RolloverEvent.archiveCache "2026-10-11",
             RolloverEvent.resetFlags]
            ++ (if (sync_data (mkSyncInput stC7 envC7D)).accAfter.isEmpty then []
                else [RolloverEvent.clearAccum])) := by
  have hnorm : ¬ (normalizeApps stC7.acc).isEmpty := by
    rw [show stC7.acc = [("browser", 45)] from rfl, normalizeApps_browser45]
    decide
  refine ⟨by decide, rfl, rfl, by decide, hnorm, ?_, ?_⟩
  · rw [show stC7.acc = [("browser", 45)] from rfl, normalizeApps_browser45]
  · exact rollover_syncs_archives_resets_then_clears stC7 "2026-10-11"
      "2026-10-12" "2026-10-12" envC7D (by decide) rfl rfl (by decide) hnorm

theorem purge_outdated_mem (cache : List Payload) (today : String) :
    ∀ e ∈ purge_outdated cache today, e.date = "" ∨ e.date = today := by
  induction cache with
  | nil =>
    intro e he
    simp [purge_outdated] at he
  | cons p ps ih =>
    intro e he
    rw [purge_outdated] at he
    by_cases hcond : p.date ≠ "" ∧ p.date ≠ today
    · rw [if_pos hcond] at he
      exact ih e he
    · rw [if_neg hcond] at he
      rcases List.mem_cons.mp he with h | h
      · subst h
        rcases not_and_or.mp hcond with h | h
        · exact Or.inl (not_not.mp h)
        · exact Or.inr (not_not.mp h)
      · exact ih e h

theorem purge_outdated_keeps (cache : List Payload) (today : String) :
    ∀ e ∈ cache, e.date = today → e ∈ purge_outdated cache today := by
  induction cache with
  | nil => simp
  | cons p ps ih =>
    intro e he hd
    rw [purge_outdated]
    rcases List.mem_cons.mp he with h | h
    · subst h
      rw [if_neg (by rintro ⟨_, hne⟩; exact hne hd)]
      exact List.mem_cons_self _ _
    · by_cases hcond : p.date ≠ "" ∧ p.date ≠ today
      · rw [if_pos hcond]
        exact ih e h hd
      · rw [if_neg hcond]
        exact List.mem_cons_of_mem _ (ih e h hd)

/-- Counterexample to C8 as stated: `cachedPayloadC8` is dated 2026-10-11,
yet after startup on 2026-10-12 it is still in the durable cache, unpurged —
no startup code path touches the cache file.  (The sweep that would have
removed it, `purge_outdated`, lives only in the deprecated, never-called
`send_cached_data`.) -/
theorem startup_purge_counterexample :
    (startup_state [cachedPayloadC8]).cache = [cachedPayloadC8]
    ∧ cachedPayloadC8 ∈ (startup_state [cachedPayloadC8]).cache
    ∧ cachedPayloadC8.date ≠ "2026-10-12"
    ∧ purge_outdated [cachedPayloadC8] "2026-10-12" = [] := by
  refine ⟨rfl, by simp [startup_state], by decide, ?_⟩
  rw [purge_outdated, if_pos ⟨by decide, by decide⟩]
  rfl

/-- Amended C8: agent startup initializes the membership flags and clears the
in-memory accumulator but leaves the durable cache file exactly as it was —
stale entries are not purged (and not sent) at startup.  The date-based purge
exists only in the deprecated, caller-less `send_cached_data`; had it run,
it would remove precisely the entries whose non-empty recorded date differs
from today, without sending them. -/
theorem startup_preserves_cache_purge_is_dead_code (cache : List Payload)
    (today : String) :
    (startup_state cache).cache = cache
    ∧ (startup_state cache).tracking_enabled = false
    ∧ (startup_state cache).has_joined_today = false
    ∧ (startup_state cache).acc = []
    ∧ (∀ e ∈ purge_outdated cache today, e.date = "" ∨ e.date = today)
    ∧ (∀ e ∈ cache, e.date = today → e ∈ purge_outdated cache today) :=
  ⟨rfl, rfl, rfl, rfl, purge_outdated_mem cache today,
    purge_outdated_keeps cache today⟩

theorem startup_preserves_cache_purge_is_dead_code_witness :
    (startup_state [cachedPayloadC8]).cache = [cachedPayloadC8]
    ∧ (startup_state [cachedPayloadC8]).tracking_enabled = false
    ∧ (startup_state [cachedPayloadC8]).has_joined_today = false
    ∧ (startup_state [cachedPayloadC8]).acc = []
    ∧ (∀ e ∈ purge_outdated [cachedPayloadC8] "2026-10-11",
        e.date = "" ∨ e.date = "2026-10-11")
    ∧ (∀ e ∈ [cachedPayloadC8], e.date = "2026-10-11" →
        e ∈ purge_outdated [cachedPayloadC8] "2026-10-11") :=
  startup_preserves_cache_purge_is_dead_code [cachedPayloadC8] "2026-10-11"

/-- C9: the claimed screenshot behaviour can never be observed, because the
cited worker does not even compile.  In `screenshot_worker` (tracker.py
lines 796-815) the module-global `last_screenshot_time` is read at line 802
and only then declared `global` at line 807; CPython's symbol-table check
rejects exactly this use-before-declaration pattern with a compile-time
SyntaxError, raised while importing the module — under every Python 3, and
the module's f-strings admit nothing older — so the agent never starts and
no screenshot is ever captured or uploaded, with tracking enabled or not.
The same checker accepts the declare-then-use pattern of `on_activity`
(and of every other function in the module), so the defect is specific to
the screenshot worker. -/
theorem screenshot_worker_global_syntax_error :
    usedPriorToGlobal screenshot_worker_last_screenshot_time_events = true
    ∧ usedPriorToGlobal on_activity_last_input_events = false := by
  decide

end Tracker
